import Mathlib

/-!
Verification of the Conway Game of Life core of KatzMatz/bevy-life-game.

The simulation core lives in src/main.rs (functions spawn_grid and
update_grid_cell) and src/grid.rs (struct GridCell). The Bevy query over
GridCell components is modelled as a list of GridCell values in the order
the entities were spawned by spawn_grid: x outer from 0 to width-1, y inner
from 0 to height-1 (Bevy iterates a single-archetype table in spawn order,
and both iteration passes of update_grid_cell see the same order).
Fallible steps (Option::unwrap, indexing, rand panics) are modelled with
Option, where none stands for a panic.
-/

namespace LifeGame

/-- Mirror of GridCell (src/grid.rs): grid coordinates plus the alive flag. -/
structure GridCell where
  x : Nat
  y : Nat
  is_alive : Bool
deriving DecidableEq

/-- Mirror of GameConfig (src/main.rs), restricted to the fields the
simulation core reads. The rendering and timing fields (cell_size,
update_interval_millis) are out of scope. The f64 field initial_dencity is
modelled as a rational. -/
structure GameConfig where
  width : Nat
  height : Nat
  initial_dencity : ℚ
deriving DecidableEq

/-- Rust isize::rem_euclid against a usize modulus, then the cast back to
usize: the mathematical (non-negative) remainder. -/
def wrapIdx (v : Int) (m : Nat) : Nat := (v % (m : Int)).toNat

/-- The 8 (dx, dy) offsets in the order the nested loops of
update_grid_cell visit them (dy outer from -1 to 1, dx inner, the (0,0)
pair skipped by the continue). -/
def neighborOffsets : List (Int × Int) :=
  [(-1, -1), (0, -1), (1, -1), (-1, 0), (1, 0), (-1, 1), (0, 1), (1, 1)]

/-- The wrapped neighbor coordinate (nx, ny) computed by update_grid_cell:
nx = (x + dx).rem_euclid(width), ny = (y + dy).rem_euclid(height). -/
def neighborCoord (cfg : GameConfig) (x y : Nat) (d : Int × Int) : Nat × Nat :=
  (wrapIdx ((x : Int) + d.1) cfg.width, wrapIdx ((y : Int) + d.2) cfg.height)

/-- The flat index ny * width + nx that update_grid_cell passes to
query.iter().nth(..). -/
def neighborIndex (cfg : GameConfig) (x y : Nat) (d : Int × Int) : Nat :=
  (neighborCoord cfg x y d).2 * cfg.width + (neighborCoord cfg x y d).1

/-- Option-valued traversal: applies f to each element left to right and
collects the results, propagating the first failure (a modelled panic). -/
def collectSome {α β : Type} (f : α → Option β) : List α → Option (List β)
  | [] => some []
  | a :: l =>
    match f a with
    | none => none
    | some b => (collectSome f l).map (fun bs => b :: bs)

/-- The neighbor-counting loop of update_grid_cell for one cell:
query.iter().nth(ny * width + nx) is List.get? on the query order, and the
.unwrap() of a missing element is the none outcome. -/
def countAliveNeighbors (cfg : GameConfig) (cells : List GridCell) (c : GridCell) : Option Nat :=
  (collectSome
      (fun d => (cells.get? (neighborIndex cfg c.x c.y d)).map (fun n => n.is_alive))
      neighborOffsets).map
    (fun l => l.count true)

/-- The match on (cell.is_alive, number_of_neighbor_alive) in
update_grid_cell. -/
def nextState (alive : Bool) (n : Nat) : Bool :=
  match alive, n with
  | true, 2 => true
  | true, 3 => true
  | false, 3 => true
  | _, _ => false

/-- The first pass of update_grid_cell: one next_generation_state entry is
pushed per iterated cell. -/
def nextGenerationState (cfg : GameConfig) (cells : List GridCell) : Option (List Bool) :=
  collectSome
    (fun c => (countAliveNeighbors cfg cells c).map (fun n => nextState c.is_alive n))
    cells

/-- The second pass of update_grid_cell:
for (i, mut cell) in query.iter_mut().enumerate(), cell.is_alive is set to
next_generation_state[i]; running out of pushed states is the indexing
panic, modelled as none. -/
def writeBack : List GridCell → List Bool → Option (List GridCell)
  | [], _ => some []
  | _ :: _, [] => none
  | c :: cs, b :: bs => (writeBack cs bs).map (fun rest => { c with is_alive := b } :: rest)

/-- One generation advance: the timer-guarded body of update_grid_cell in
src/main.rs. -/
def update_grid_cell (cfg : GameConfig) (cells : List GridCell) : Option (List GridCell) :=
  (nextGenerationState cfg cells).bind (fun ns => writeBack cells ns)

/-- The coordinates in the order the nested loops of spawn_grid visit them:
x outer over 0..width, y inner over 0..height. -/
def gridCoords (w h : Nat) : List (Nat × Nat) :=
  (List.range w).flatMap (fun x => (List.range h).map (fun y => (x, y)))

/-- A full grid in spawn order with the alive flags given by a function of
the coordinates. -/
def spawnCells (w h : Nat) (alive : Nat → Nat → Bool) : List GridCell :=
  (gridCoords w h).map (fun xy => { x := xy.1, y := xy.2, is_alive := alive xy.1 xy.2 })

/-- rand::Rng::gen_bool via Bernoulli::new: a probability in [0,1) is
sampled by comparing a fresh u64 draw with floor(p * 2^64), p = 1 always
yields true, and any p outside [0,1] panics (none). -/
def genBool (p : ℚ) (draw : Nat) : Option Bool :=
  if 0 ≤ p ∧ p < 1 then some (decide ((draw : Int) < Int.floor (p * 2 ^ 64)))
  else if p = 1 then some true
  else none

/-- spawn_grid (src/main.rs): spawns one GridCell per coordinate, x outer,
y inner, drawing rng.gen_bool(config.initial_dencity) for each; the rng is
the injected stream of u64 draws, consumed in spawn order (the cell (x, y)
uses draw number x * height + y). Sprite placement is out of scope. -/
def spawn_grid (cfg : GameConfig) (rng : Nat → Nat) : Option (List GridCell) :=
  collectSome
    (fun xy =>
      (genBool cfg.initial_dencity (rng (xy.1 * cfg.height + xy.2))).map
        (fun b => { x := xy.1, y := xy.2, is_alive := b }))
    (gridCoords cfg.width cfg.height)

/-- Following the spec's words, for comparison with the code: the
pre-advance state of the cell actually located at a given coordinate. -/
def specAlive (cells : List GridCell) (xy : Nat × Nat) : Bool :=
  cells.any (fun c => c.x == xy.1 && c.y == xy.2 && c.is_alive)

/-- Following the spec's words: the next state of a cell is the B3/S23 rule
applied to the number of alive reads among the states of the cells located
at the 8 toroidally wrapped neighbor coordinates. -/
def specNextAlive (cfg : GameConfig) (cells : List GridCell) (c : GridCell) : Bool :=
  nextState c.is_alive
    ((neighborOffsets.map (fun d => specAlive cells (neighborCoord cfg c.x c.y d))).count true)

/-- Following the spec's words: one advance updates every cell to its
B3/S23 next state computed from the pre-advance snapshot. -/
def specUpdate (cfg : GameConfig) (cells : List GridCell) : List GridCell :=
  cells.map (fun c => { c with is_alive := specNextAlive cfg cells c })

/-- Cost model for the neighbor lookups of one cell, counting query
elements traversed: Iterator::nth(k) on a fresh query.iter() walks k + 1
elements before returning, so every one of the 8 lookups of
update_grid_cell costs its flat index plus one. -/
def lookupCost (cfg : GameConfig) (c : GridCell) : Nat :=
  (neighborOffsets.map (fun d => neighborIndex cfg c.x c.y d + 1)).sum

/-- Cost model for one advance: the query elements traversed by all
neighbor lookups of the counting pass. -/
def advanceCost (cfg : GameConfig) (cells : List GridCell) : Nat :=
  (cells.map (fun c => lookupCost cfg c)).sum

/-! ### Helper lemmas -/

lemma wrapIdx_lt (v : Int) {m : Nat} (hm : 0 < m) : wrapIdx v m < m := by
  unfold wrapIdx
  have hm' : (0 : Int) < (m : Int) := by exact_mod_cast hm
  have h1 := Int.emod_nonneg v hm'.ne'
  have h2 := Int.emod_lt_of_pos v hm'
  omega

lemma wrapIdx_neg_one {m : Nat} (hm : 0 < m) : wrapIdx (-1) m = m - 1 := by
  unfold wrapIdx
  have hm' : (0 : Int) < (m : Int) := by exact_mod_cast hm
  have h2 : ((m : Int) - 1 + (m : Int) * (-1)) % (m : Int) = ((m : Int) - 1) % (m : Int) :=
    Int.add_mul_emod_self_left _ _ _
  have h3 : (m : Int) - 1 + (m : Int) * (-1) = -1 := by ring
  rw [h3] at h2
  rw [h2, Int.emod_eq_of_lt (by omega) (by omega)]
  omega

lemma wrapIdx_self {m : Nat} : wrapIdx (m : Int) m = 0 := by
  unfold wrapIdx
  rw [Int.emod_self]
  rfl

lemma wrapIdx_natCast {x m : Nat} (h : x < m) : wrapIdx (x : Int) m = x := by
  unfold wrapIdx
  rw [Int.emod_eq_of_lt (Int.natCast_nonneg x) (by exact_mod_cast h)]
  simp

lemma wrapIdx_one (v : Int) : wrapIdx v 1 = 0 := by
  unfold wrapIdx
  simp [Int.emod_one]

lemma neighborIndex_lt (cfg : GameConfig) (hw : 0 < cfg.width) (hh : 0 < cfg.height)
    (x y : Nat) (d : Int × Int) : neighborIndex cfg x y d < cfg.width * cfg.height := by
  have h1 := wrapIdx_lt ((x : Int) + d.1) hw
  have h2 := wrapIdx_lt ((y : Int) + d.2) hh
  show wrapIdx ((y : Int) + d.2) cfg.height * cfg.width + wrapIdx ((x : Int) + d.1) cfg.width <
    cfg.width * cfg.height
  calc wrapIdx ((y : Int) + d.2) cfg.height * cfg.width + wrapIdx ((x : Int) + d.1) cfg.width
      < wrapIdx ((y : Int) + d.2) cfg.height * cfg.width + cfg.width := by omega
    _ = (wrapIdx ((y : Int) + d.2) cfg.height + 1) * cfg.width := by ring
    _ ≤ cfg.height * cfg.width := Nat.mul_le_mul_right _ (by omega)
    _ = cfg.width * cfg.height := Nat.mul_comm _ _

lemma collectSome_congr_some {α β : Type} {f : α → Option β} {g : α → β} :
    ∀ {l : List α}, (∀ a ∈ l, f a = some (g a)) → collectSome f l = some (l.map g) := by
  intro l
  induction l with
  | nil => intro _; rfl
  | cons a t ih =>
    intro h
    have ha := h a (List.mem_cons_self a t)
    have ht := ih (fun b hb => h b (List.mem_cons_of_mem a hb))
    simp [collectSome, ha, ht]

lemma collectSome_some_len {α β : Type} {f : α → Option β} :
    ∀ {l : List α}, (∀ a ∈ l, ∃ b, f a = some b) →
      ∃ bs, collectSome f l = some bs ∧ bs.length = l.length := by
  intro l
  induction l with
  | nil => intro _; exact ⟨[], rfl, rfl⟩
  | cons a t ih =>
    intro h
    obtain ⟨b, hb⟩ := h a (List.mem_cons_self a t)
    obtain ⟨bs, hbs, hlen⟩ := ih (fun c hc => h c (List.mem_cons_of_mem a hc))
    exact ⟨b :: bs, by simp [collectSome, hb, hbs], by simp [hlen]⟩

lemma collectSome_eq_none_iff {α β : Type} {f : α → Option β} :
    ∀ {l : List α}, (collectSome f l = none ↔ ∃ a ∈ l, f a = none) := by
  intro l
  induction l with
  | nil => simp [collectSome]
  | cons a t ih =>
    cases hfa : f a with
    | none => simp [collectSome, hfa]
    | some b => simp [collectSome, hfa, Option.map_eq_none', ih]

lemma writeBack_some (cells : List GridCell) :
    ∀ ns : List Bool, cells.length ≤ ns.length →
      ∃ out, writeBack cells ns = some out ∧ out.length = cells.length ∧
        out.map (fun c => (c.x, c.y)) = cells.map (fun c => (c.x, c.y)) := by
  induction cells with
  | nil => intro ns _; exact ⟨[], rfl, rfl, rfl⟩
  | cons c cs ih =>
    intro ns h
    cases ns with
    | nil => simp at h
    | cons b bs =>
      obtain ⟨out, hout, hlen, hcoord⟩ := ih bs (by simpa using h)
      refine ⟨{ c with is_alive := b } :: out, ?_, ?_, ?_⟩
      · simp [writeBack, hout]
      · simp [hlen]
      · simp [hcoord]

lemma writeBack_get (cells : List GridCell) :
    ∀ (ns : List Bool) (out : List GridCell), writeBack cells ns = some out →
      ∀ i : Nat, out.get? i =
        (cells.get? i).bind (fun c => (ns.get? i).map (fun b => { c with is_alive := b })) := by
  induction cells with
  | nil =>
    intro ns out h i
    simp only [writeBack, Option.some.injEq] at h
    subst h
    simp
  | cons c cs ih =>
    intro ns out h i
    cases ns with
    | nil => simp [writeBack] at h
    | cons b bs =>
      rw [writeBack] at h
      obtain ⟨rest, hrest, hout⟩ := Option.map_eq_some'.mp h
      subst hout
      cases i with
      | zero => simp
      | succ n => simpa using ih bs rest hrest n

lemma writeBack_alive_mem (cells : List GridCell) :
    ∀ (ns : List Bool) (out : List GridCell), writeBack cells ns = some out →
      ∀ a ∈ out, a.is_alive ∈ ns := by
  induction cells with
  | nil =>
    intro ns out h a ha
    simp only [writeBack, Option.some.injEq] at h
    subst h
    simp at ha
  | cons c cs ih =>
    intro ns out h a ha
    cases ns with
    | nil => simp [writeBack] at h
    | cons b bs =>
      rw [writeBack] at h
      obtain ⟨rest, hrest, hout⟩ := Option.map_eq_some'.mp h
      subst hout
      rcases List.mem_cons.mp ha with h1 | h1
      · subst h1; simp
      · exact List.mem_cons_of_mem _ (ih bs rest hrest a h1)

lemma gridCoords_length (w h : Nat) : (gridCoords w h).length = w * h := by
  induction w with
  | zero => simp [gridCoords]
  | succ n ih =>
    unfold gridCoords at ih ⊢
    rw [List.range_succ, List.flatMap_append, List.length_append, ih]
    simp [Nat.succ_mul]

lemma mem_gridCoords {w h : Nat} {xy : Nat × Nat} (hm : xy ∈ gridCoords w h) :
    xy.1 < w ∧ xy.2 < h := by
  unfold gridCoords at hm
  simp only [List.mem_flatMap, List.mem_map, List.mem_range] at hm
  obtain ⟨a, ha, b, hb, hab⟩ := hm
  rw [← hab]
  exact ⟨ha, hb⟩

lemma spawnCells_length (w h : Nat) (f : Nat → Nat → Bool) :
    (spawnCells w h f).length = w * h := by
  unfold spawnCells
  rw [List.length_map, gridCoords_length]

lemma gridCoords_one (w : Nat) : gridCoords w 1 = (List.range w).map (fun x => (x, 0)) := by
  unfold gridCoords
  induction w with
  | zero => rfl
  | succ n ih =>
    rw [List.range_succ, List.flatMap_append, ih, List.map_append]
    rfl

lemma twice_sum_range (w : Nat) :
    2 * ((List.range w).map (fun x => x + 1)).sum = w * (w + 1) := by
  induction w with
  | zero => rfl
  | succ n ih =>
    rw [List.range_succ, List.map_append, List.sum_append]
    simp only [List.map_cons, List.map_nil, List.sum_cons, List.sum_nil]
    have e1 : (n + 1) * (n + 1 + 1) = n * (n + 1) + 2 * (n + 1) := by ring
    rw [e1, ← ih]
    ring

lemma lookupCost_ge (w : Nat) (q : ℚ) (c : GridCell) (hx : c.x < w) :
    c.x + 1 ≤ lookupCost ⟨w, 1, q⟩ c := by
  have h1 : ∀ v : Int, wrapIdx v 1 = 0 := wrapIdx_one
  simp only [lookupCost, neighborOffsets, neighborIndex, neighborCoord, List.map_cons,
    List.map_nil, List.sum_cons, List.sum_nil]
  simp [h1, wrapIdx_natCast hx]
  omega

lemma advanceCost_lb (w : Nat) (q : ℚ) (f : Nat → Nat → Bool) :
    ((List.range w).map (fun x => x + 1)).sum ≤ advanceCost ⟨w, 1, q⟩ (spawnCells w 1 f) := by
  unfold advanceCost spawnCells
  rw [gridCoords_one, List.map_map, List.map_map]
  apply List.sum_le_sum
  intro x hx
  have hx' : x < w := List.mem_range.mp hx
  simpa [Function.comp] using lookupCost_ge w q { x := x, y := 0, is_alive := f x 0 } hx'

lemma countAliveNeighbors_some (cfg : GameConfig) (cells : List GridCell)
    (hw : 0 < cfg.width) (hh : 0 < cfg.height)
    (hlen : cells.length = cfg.width * cfg.height) (c : GridCell) :
    ∃ n, countAliveNeighbors cfg cells c = some n := by
  have hall : ∀ d ∈ neighborOffsets,
      ∃ b, ((cells.get? (neighborIndex cfg c.x c.y d)).map (fun n => n.is_alive)) = some b := by
    intro d _
    have hidx : neighborIndex cfg c.x c.y d < cells.length := by
      rw [hlen]; exact neighborIndex_lt cfg hw hh c.x c.y d
    exact ⟨(cells.get ⟨_, hidx⟩).is_alive, by rw [List.get?_eq_get hidx]; rfl⟩
  obtain ⟨bs, hbs, -⟩ := collectSome_some_len hall
  refine ⟨bs.count true, ?_⟩
  unfold countAliveNeighbors
  rw [hbs]
  rfl

lemma advance_some (cfg : GameConfig) (cells : List GridCell)
    (hw : 0 < cfg.width) (hh : 0 < cfg.height)
    (hlen : cells.length = cfg.width * cfg.height) :
    ∃ ns out, nextGenerationState cfg cells = some ns ∧ ns.length = cells.length ∧
      writeBack cells ns = some out ∧ update_grid_cell cfg cells = some out ∧
      out.length = cells.length ∧
      out.map (fun c => (c.x, c.y)) = cells.map (fun c => (c.x, c.y)) := by
  have hall : ∀ c ∈ cells,
      ∃ b, ((countAliveNeighbors cfg cells c).map (fun n => nextState c.is_alive n)) = some b := by
    intro c _
    obtain ⟨n, hn⟩ := countAliveNeighbors_some cfg cells hw hh hlen c
    exact ⟨nextState c.is_alive n, by rw [hn]; rfl⟩
  obtain ⟨ns, hns, hnslen⟩ := collectSome_some_len hall
  obtain ⟨out, hout, holen, hocoord⟩ := writeBack_some cells ns (by omega)
  refine ⟨ns, out, hns, hnslen, hout, ?_, holen, hocoord⟩
  unfold update_grid_cell nextGenerationState
  rw [hns]
  exact hout

lemma genBool_eq_none_iff (p : ℚ) (draw : Nat) :
    genBool p draw = none ↔ p < 0 ∨ 1 < p := by
  unfold genBool
  split_ifs with h1 h2
  · have hne : ¬(p < 0 ∨ 1 < p) := by
      rcases h1 with ⟨ha, hb⟩
      push_neg
      exact ⟨by linarith, by linarith⟩
    simp [hne]
  · have hne : ¬(p < 0 ∨ 1 < p) := by
      subst h2
      push_neg
      exact ⟨by norm_num, le_refl 1⟩
    simp [hne]
  · have hyes : p < 0 ∨ 1 < p := by
      push_neg at h1
      rcases lt_or_le p 0 with h | h
      · exact Or.inl h
      · exact Or.inr (lt_of_le_of_ne (h1 h) (Ne.symm h2))
    simp [hyes]

lemma genBool_zero (draw : Nat) : genBool 0 draw = some false := by
  unfold genBool
  rw [if_pos (⟨le_refl 0, by norm_num⟩ : (0 : ℚ) ≤ 0 ∧ (0 : ℚ) < 1)]
  have h1 : Int.floor ((0 : ℚ) * 2 ^ 64) = 0 := by norm_num
  rw [h1]
  have h2 : ¬((draw : Int) < 0) := not_lt.mpr (Int.natCast_nonneg draw)
  simp [h2]

lemma genBool_one (draw : Nat) : genBool 1 draw = some true := by
  unfold genBool
  rw [if_neg (by norm_num : ¬((0 : ℚ) ≤ 1 ∧ (1 : ℚ) < 1)), if_pos rfl]

/-! ### Claim theorems -/

/-- Claim C1, a code bug: one advance does not assign every cell the B3/S23
value computed from the states of the cells actually located at its 8
wrapped neighbor coordinates. On the 3 x 3 grid, spawned in program order
with exactly the row y = 1 alive, the code leaves cell (1, 0) dead (its
lookup index ny * width + nx addresses spawn order as if it were row-major,
fetching transposed cells), while the rule of the spec makes (1, 0) alive
(it has exactly 3 alive neighbors). Cell (1, 0) sits at iteration index 3. -/
theorem update_grid_cell_deviates_from_rule :
    update_grid_cell ⟨3, 3, 0⟩ (spawnCells 3 3 (fun _ b => b == 1)) ≠
      some (specUpdate ⟨3, 3, 0⟩ (spawnCells 3 3 (fun _ b => b == 1))) ∧
    (update_grid_cell ⟨3, 3, 0⟩ (spawnCells 3 3 (fun _ b => b == 1))).map
        (fun out => out.get? 3) = some (some { x := 1, y := 0, is_alive := false }) ∧
    (specUpdate ⟨3, 3, 0⟩ (spawnCells 3 3 (fun _ b => b == 1))).get? 3 =
      some { x := 1, y := 0, is_alive := true } := by
  decide

/-- Claim C2: during an advance the neighbor coordinate used for cell
(x, y) and offset (dx, dy) is nx = (x + dx) mod width and
ny = (y + dy) mod height under the mathematical non-negative modulo, both
always in range, and a cell on a grid edge wraps to the opposite edge. -/
theorem neighbor_coords_wrap (cfg : GameConfig) (hw : 0 < cfg.width) (hh : 0 < cfg.height)
    (x y : Nat) (_hx : x < cfg.width) (_hy : y < cfg.height)
    (d : Int × Int) (_hd : d ∈ neighborOffsets) :
    (neighborCoord cfg x y d).1 = (((x : Int) + d.1) % (cfg.width : Int)).toNat ∧
    (neighborCoord cfg x y d).2 = (((y : Int) + d.2) % (cfg.height : Int)).toNat ∧
    (neighborCoord cfg x y d).1 < cfg.width ∧
    (neighborCoord cfg x y d).2 < cfg.height ∧
    (x = 0 → d.1 = -1 → (neighborCoord cfg x y d).1 = cfg.width - 1) ∧
    (x = cfg.width - 1 → d.1 = 1 → (neighborCoord cfg x y d).1 = 0) ∧
    (y = 0 → d.2 = -1 → (neighborCoord cfg x y d).2 = cfg.height - 1) ∧
    (y = cfg.height - 1 → d.2 = 1 → (neighborCoord cfg x y d).2 = 0) := by
  refine ⟨rfl, rfl, wrapIdx_lt _ hw, wrapIdx_lt _ hh, ?_, ?_, ?_, ?_⟩
  · intro h0 h1
    show wrapIdx ((x : Int) + d.1) cfg.width = cfg.width - 1
    rw [h0, h1]
    have e : ((0 : Nat) : Int) + (-1) = (-1 : Int) := by norm_num
    rw [e]
    exact wrapIdx_neg_one hw
  · intro h0 h1
    show wrapIdx ((x : Int) + d.1) cfg.width = 0
    rw [h0, h1]
    have e : ((cfg.width - 1 : Nat) : Int) + 1 = (cfg.width : Int) := by
      have h2 : 1 ≤ cfg.width := hw
      push_cast [h2]
      ring
    rw [e]
    exact wrapIdx_self
  · intro h0 h1
    show wrapIdx ((y : Int) + d.2) cfg.height = cfg.height - 1
    rw [h0, h1]
    have e : ((0 : Nat) : Int) + (-1) = (-1 : Int) := by norm_num
    rw [e]
    exact wrapIdx_neg_one hh
  · intro h0 h1
    show wrapIdx ((y : Int) + d.2) cfg.height = 0
    rw [h0, h1]
    have e : ((cfg.height - 1 : Nat) : Int) + 1 = (cfg.height : Int) := by
      have h2 : 1 ≤ cfg.height := hh
      push_cast [h2]
      ring
    rw [e]
    exact wrapIdx_self

/-- Witness for claim C2 at width 5, height 4, cell (0, 3), offset (-1, 1). -/
theorem neighbor_coords_wrap_witness :
    (neighborCoord ⟨5, 4, 0⟩ 0 3 (-1, 1)).1 = 4 ∧
    (neighborCoord ⟨5, 4, 0⟩ 0 3 (-1, 1)).2 = 0 ∧
    (neighborCoord ⟨5, 4, 0⟩ 0 3 (-1, 1)).1 < 5 ∧
    (neighborCoord ⟨5, 4, 0⟩ 0 3 (-1, 1)).2 < 4 ∧
    ((0 : Nat) = 0 → ((-1, 1) : Int × Int).1 = -1 →
      (neighborCoord ⟨5, 4, 0⟩ 0 3 (-1, 1)).1 = 4) ∧
    ((0 : Nat) = 4 → ((-1, 1) : Int × Int).1 = 1 →
      (neighborCoord ⟨5, 4, 0⟩ 0 3 (-1, 1)).1 = 0) ∧
    ((3 : Nat) = 0 → ((-1, 1) : Int × Int).2 = -1 →
      (neighborCoord ⟨5, 4, 0⟩ 0 3 (-1, 1)).2 = 3) ∧
    ((3 : Nat) = 3 → ((-1, 1) : Int × Int).2 = 1 →
      (neighborCoord ⟨5, 4, 0⟩ 0 3 (-1, 1)).2 = 0) :=
  neighbor_coords_wrap ⟨5, 4, 0⟩ (by decide) (by decide) 0 3 (by decide) (by decide)
    (-1, 1) (by decide)

/-- Claim C3 counterexample: grid construction with zero width or zero
height does not fail at all; spawn_grid succeeds and produces an empty
grid, even with a density far outside [0, 1], because the spawn loops
never run and the random source is never consulted. -/
theorem zero_dims_spawn_succeeds :
    spawn_grid ⟨0, 3, 2⟩ (fun _ => 0) = some [] ∧
    spawn_grid ⟨3, 0, 2⟩ (fun _ => 0) = some [] :=
  ⟨rfl, rfl⟩

/-- Claim C3 amended: the only failing operation is seeding: spawn_grid
aborts (with a panic inside the random source, not a returned error value)
exactly when the density is outside [0, 1] and the grid has at least one
cell; zero width or height produces an empty grid without any error, and
a failing seed produces no cells at all. -/
theorem spawn_grid_failure_iff (w h : Nat) (p : ℚ) (rng : Nat → Nat) :
    spawn_grid ⟨w, h, p⟩ rng = none ↔ (p < 0 ∨ 1 < p) ∧ 0 < w ∧ 0 < h := by
  unfold spawn_grid
  rw [collectSome_eq_none_iff]
  constructor
  · rintro ⟨xy, hxy, hnone⟩
    rw [Option.map_eq_none'] at hnone
    have hp := (genBool_eq_none_iff _ _).mp hnone
    have hm := mem_gridCoords hxy
    have hm1 : xy.1 < w := hm.1
    have hm2 : xy.2 < h := hm.2
    exact ⟨hp, by omega, by omega⟩
  · rintro ⟨hp, hw, hh⟩
    refine ⟨(0, 0), ?_, ?_⟩
    · unfold gridCoords
      refine List.mem_flatMap.mpr ⟨0, List.mem_range.mpr hw, ?_⟩
      exact List.mem_map.mpr ⟨0, List.mem_range.mpr hh, rfl⟩
    · rw [Option.map_eq_none']
      exact (genBool_eq_none_iff _ _).mpr hp

/-- Claim C4: on a well-formed grid an advance never fails: every neighbor
lookup index ny * width + nx is strictly below the cell count (so the
unwrap of the looked-up cell cannot panic), and the modulo divisors width
and height are nonzero (so rem_euclid cannot panic). -/
theorem advance_never_fails (cfg : GameConfig) (cells : List GridCell)
    (hw : 0 < cfg.width) (hh : 0 < cfg.height)
    (hlen : cells.length = cfg.width * cfg.height) :
    (∀ c ∈ cells, ∀ d ∈ neighborOffsets, neighborIndex cfg c.x c.y d < cells.length) ∧
    cfg.width ≠ 0 ∧ cfg.height ≠ 0 ∧ ∃ out, update_grid_cell cfg cells = some out := by
  obtain ⟨ns, out, -, -, -, hupd, -, -⟩ := advance_some cfg cells hw hh hlen
  refine ⟨?_, by omega, by omega, out, hupd⟩
  intro c _ d _
  rw [hlen]
  exact neighborIndex_lt cfg hw hh c.x c.y d

/-- Witness for claim C4 on the 3 x 2 grid alive on its diagonal. -/
theorem advance_never_fails_witness :
    (∀ c ∈ spawnCells 3 2 (fun a b => a == b), ∀ d ∈ neighborOffsets,
        neighborIndex ⟨3, 2, 0⟩ c.x c.y d < (spawnCells 3 2 (fun a b => a == b)).length) ∧
    (⟨3, 2, 0⟩ : GameConfig).width ≠ 0 ∧ (⟨3, 2, 0⟩ : GameConfig).height ≠ 0 ∧
    ∃ out, update_grid_cell ⟨3, 2, 0⟩ (spawnCells 3 2 (fun a b => a == b)) = some out :=
  advance_never_fails ⟨3, 2, 0⟩ (spawnCells 3 2 (fun a b => a == b))
    (by decide) (by decide) (by decide)

/-- Claim C5: advancing an all-dead well-formed grid yields an all-dead
grid: every neighbor read returns a dead state, so every count is 0 and
the rule maps (dead, 0) to dead. -/
theorem advance_all_dead (cfg : GameConfig) (cells : List GridCell)
    (hw : 0 < cfg.width) (hh : 0 < cfg.height)
    (hlen : cells.length = cfg.width * cfg.height)
    (hdead : ∀ c ∈ cells, c.is_alive = false) :
    ∃ out, update_grid_cell cfg cells = some out ∧ ∀ c ∈ out, c.is_alive = false := by
  have hcount : ∀ c ∈ cells, countAliveNeighbors cfg cells c = some 0 := by
    intro c _
    have hr : collectSome
        (fun d => (cells.get? (neighborIndex cfg c.x c.y d)).map (fun n => n.is_alive))
        neighborOffsets = some (neighborOffsets.map (fun _ => false)) := by
      apply collectSome_congr_some
      intro d _
      have hidx : neighborIndex cfg c.x c.y d < cells.length := by
        rw [hlen]; exact neighborIndex_lt cfg hw hh c.x c.y d
      rw [List.get?_eq_get hidx]
      have hdc : (cells.get ⟨neighborIndex cfg c.x c.y d, hidx⟩).is_alive = false :=
        hdead _ (List.get_mem cells _ hidx)
      simpa using hdc
    unfold countAliveNeighbors
    rw [hr]
    rfl
  have hns : nextGenerationState cfg cells = some (cells.map (fun _ => false)) := by
    apply collectSome_congr_some
    intro c hc
    rw [hcount c hc]
    simp [nextState, hdead c hc]
  obtain ⟨out, hwb, -, -⟩ := writeBack_some cells (cells.map (fun _ => false)) (by simp)
  refine ⟨out, ?_, ?_⟩
  · unfold update_grid_cell
    rw [hns]
    exact hwb
  · intro a ha
    have hmem := writeBack_alive_mem cells _ out hwb a ha
    rcases List.mem_map.mp hmem with ⟨u, -, hu⟩
    exact hu.symm

/-- Witness for claim C5 on the all-dead 2 x 2 grid. -/
theorem advance_all_dead_witness :
    ∃ out, update_grid_cell ⟨2, 2, 0⟩ (spawnCells 2 2 (fun _ _ => false)) = some out ∧
      ∀ c ∈ out, c.is_alive = false :=
  advance_all_dead ⟨2, 2, 0⟩ (spawnCells 2 2 (fun _ _ => false))
    (by decide) (by decide) (by decide) (by decide)

/-- Claim C6, a code bug: the 2 x 2 block is a still life under the spec
rule (first conjunct), but the code does not return it unchanged: on the
4 x 4 grid with the block at x in {0, 1}, y in {2, 3}, spawned in program
order, the transposed neighbor reads of the flat-index slip kill the block
in place (it reappears transposed). -/
theorem block_not_still_life :
    specUpdate ⟨4, 4, 0⟩ (spawnCells 4 4 (fun a b => (a == 0 || a == 1) && (b == 2 || b == 3))) =
      spawnCells 4 4 (fun a b => (a == 0 || a == 1) && (b == 2 || b == 3)) ∧
    update_grid_cell ⟨4, 4, 0⟩
        (spawnCells 4 4 (fun a b => (a == 0 || a == 1) && (b == 2 || b == 3))) ≠
      some (spawnCells 4 4 (fun a b => (a == 0 || a == 1) && (b == 2 || b == 3))) := by
  decide

/-- Claim C7: seeding with density 0 yields the all-dead grid and seeding
with density 1 yields the all-alive grid, for any dimensions and any
stream of random draws. -/
theorem seed_density_endpoints (w h : Nat) (rng : Nat → Nat) :
    spawn_grid ⟨w, h, 0⟩ rng = some (spawnCells w h (fun _ _ => false)) ∧
    spawn_grid ⟨w, h, 1⟩ rng = some (spawnCells w h (fun _ _ => true)) := by
  constructor
  · unfold spawn_grid spawnCells
    apply collectSome_congr_some
    intro xy _
    have e1 : (⟨w, h, (0 : ℚ)⟩ : GameConfig).initial_dencity = 0 := rfl
    have e2 : (⟨w, h, (0 : ℚ)⟩ : GameConfig).height = h := rfl
    rw [e1, e2, genBool_zero]
    rfl
  · unfold spawn_grid spawnCells
    apply collectSome_congr_some
    intro xy _
    have e1 : (⟨w, h, (1 : ℚ)⟩ : GameConfig).initial_dencity = 1 := rfl
    have e2 : (⟨w, h, (1 : ℚ)⟩ : GameConfig).height = h := rfl
    rw [e1, e2, genBool_one]
    rfl

/-- Claim C8, a code bug: the neighbor lookup query.iter().nth(k) is a
linear scan (k + 1 query elements traversed), not an O(1) indexed read, so
the cost of one advance is not bounded by C * width * height for any
constant C: for every C there is a well-formed grid whose advance
traverses more than C * (width * height) query elements. -/
theorem advance_cost_superlinear :
    ∀ C : Nat, ∃ w h : Nat, ∃ alive : Nat → Nat → Bool,
      0 < w ∧ 0 < h ∧ (spawnCells w h alive).length = w * h ∧
      C * (w * h) < advanceCost ⟨w, h, 0⟩ (spawnCells w h alive) := by
  intro C
  refine ⟨2 * C + 2, 1, fun _ _ => false, by omega, by omega, spawnCells_length _ _ _, ?_⟩
  have h1 := advanceCost_lb (2 * C + 2) 0 (fun _ _ => false)
  have h2 := twice_sum_range (2 * C + 2)
  have h3 : (2 * C + 2) * (2 * C + 2 + 1) = 4 * (C * C) + 10 * C + 6 := by ring
  rw [h3] at h2
  have h4 : C * ((2 * C + 2) * 1) = 2 * (C * C) + 2 * C := by ring
  rw [h4]
  linarith

/-- Claim C9: an advance on a well-formed grid changes only the is_alive
field: the output has the same length and the same coordinate pair at
every position as the input. -/
theorem advance_only_mutates_alive (cfg : GameConfig) (cells : List GridCell)
    (hw : 0 < cfg.width) (hh : 0 < cfg.height)
    (hlen : cells.length = cfg.width * cfg.height) :
    ∃ out, update_grid_cell cfg cells = some out ∧ out.length = cells.length ∧
      out.map (fun c => (c.x, c.y)) = cells.map (fun c => (c.x, c.y)) := by
  obtain ⟨ns, out, -, -, -, hupd, holen, hocoord⟩ := advance_some cfg cells hw hh hlen
  exact ⟨out, hupd, holen, hocoord⟩

/-- Witness for claim C9 on a 2 x 3 grid alive in its first column. -/
theorem advance_only_mutates_alive_witness :
    ∃ out, update_grid_cell ⟨2, 3, 0⟩ (spawnCells 2 3 (fun a _ => a == 0)) = some out ∧
      out.length = (spawnCells 2 3 (fun a _ => a == 0)).length ∧
      out.map (fun c => (c.x, c.y)) =
        (spawnCells 2 3 (fun a _ => a == 0)).map (fun c => (c.x, c.y)) :=
  advance_only_mutates_alive ⟨2, 3, 0⟩ (spawnCells 2 3 (fun a _ => a == 0))
    (by decide) (by decide) (by decide)

/-- Claim C10: the counting pass pushes exactly one next-state value per
cell (the buffer length equals the cell count), and the write-back loop
gives the i-th iterated cell exactly the i-th computed state, every index
in bounds. -/
theorem advance_states_align (cfg : GameConfig) (cells : List GridCell)
    (hw : 0 < cfg.width) (hh : 0 < cfg.height)
    (hlen : cells.length = cfg.width * cfg.height) :
    ∃ ns out, nextGenerationState cfg cells = some ns ∧ ns.length = cells.length ∧
      update_grid_cell cfg cells = some out ∧
      ∀ i : Nat, out.get? i =
        (cells.get? i).bind (fun c => (ns.get? i).map (fun b => { c with is_alive := b })) := by
  obtain ⟨ns, out, hns, hnslen, hwb, hupd, -, -⟩ := advance_some cfg cells hw hh hlen
  exact ⟨ns, out, hns, hnslen, hupd, writeBack_get cells ns out hwb⟩

/-- Witness for claim C10 on a 3 x 3 grid with the center alive. -/
theorem advance_states_align_witness :
    ∃ ns out, nextGenerationState ⟨3, 3, 0⟩
        (spawnCells 3 3 (fun a b => a == 1 && b == 1)) = some ns ∧
      ns.length = (spawnCells 3 3 (fun a b => a == 1 && b == 1)).length ∧
      update_grid_cell ⟨3, 3, 0⟩ (spawnCells 3 3 (fun a b => a == 1 && b == 1)) = some out ∧
      ∀ i : Nat, out.get? i =
        ((spawnCells 3 3 (fun a b => a == 1 && b == 1)).get? i).bind
          (fun c => (ns.get? i).map (fun b => { c with is_alive := b })) :=
  advance_states_align ⟨3, 3, 0⟩ (spawnCells 3 3 (fun a b => a == 1 && b == 1))
    (by decide) (by decide) (by decide)

end LifeGame
